import Mathlib

/-!
Verification of the Account REST microservice (route layer of
`service/routes.py` together with the Account record contract).

The route layer is embedded shallowly: each endpoint is a function from a
store and a request to a response and a new store.  The Account record
(`service/models.py` is not part of the sources; only its contract is given
by the specification and its callers) is modelled from the spec where
needed, and every such definition is marked `Modelled from the spec:` in its
doc comment.  HTTP statuses are plain naturals.
-/

namespace AccountService

/-- A stored Account row: `id` is assigned by the store on creation;
`name`, `email`, `address` are required strings; `phone_number` is
optional; `date_joined` is a date rendered as a string. -/
structure Account where
  id : Nat
  name : String
  email : String
  address : String
  phone_number : Option String
  date_joined : String
  deriving Repr, DecidableEq

/-- A JSON request body for an Account, viewed as a partial mapping from
the Account field names to string values (a field absent from the JSON
object is `none`).  A client payload carries no `id`. -/
structure Payload where
  name : Option String
  email : Option String
  address : Option String
  phone_number : Option String
  date_joined : Option String
  deriving Repr, DecidableEq

/-- The field values `deserialize` populates on a record (everything but
the store-assigned `id`). -/
structure AccountFields where
  name : String
  email : String
  address : String
  phone_number : Option String
  date_joined : Option String
  deriving Repr, DecidableEq

/-- Modelled from the spec: `deserialize(payload)` of the Account record
(`service/models.py`, absent from the sources).  It accepts a mapping of
field names to values, fails with a validation error if a required field
(`name`, `email`, `address`) is absent, and does not touch the store.
`phone_number` and `date_joined` are optional. -/
def deserialize (p : Payload) : Except String AccountFields :=
  match p.name, p.email, p.address with
  | some n, some e, some a =>
      .ok { name := n, email := e, address := a,
            phone_number := p.phone_number, date_joined := p.date_joined }
  | none, _, _ => .error "Invalid Account: missing name"
  | _, none, _ => .error "Invalid Account: missing email"
  | _, _, none => .error "Invalid Account: missing address"

/-- `serialize()` of the Account record: a mapping of all fields,
including `id` and `date_joined` rendered as a string.  Here the mapping
is represented by the `Account` structure itself, which holds exactly
those fields. -/
def serialize (a : Account) : Account := a

/-- View a serialized record as a request payload again (the mapping of
field names to values that `deserialize` accepts; the `id` key is not
among the fields `deserialize` reads). -/
def Account.toPayload (a : Account) : Payload :=
  { name := some a.name, email := some a.email, address := some a.address,
    phone_number := a.phone_number, date_joined := some a.date_joined }

/-- The relational store: the rows of the single Account table, the next
`id` the store will assign, and the current date (used for the
`date_joined` default). -/
structure Store where
  nextId : Nat
  accounts : List Account
  today : String
  deriving Repr, DecidableEq

/-- Modelled from the spec: `find(id)` of the Account record — returns
the record matching `id`, or an absence signal if none exists. -/
def Store.find (s : Store) (id : Nat) : Option Account :=
  s.accounts.find? (fun a => a.id == id)

/-- Modelled from the spec: `all()` of the Account record — every record
currently in the store. -/
def Store.all (s : Store) : List Account :=
  s.accounts

/-- Modelled from the spec: `create()` of the Account record — persists a
new record, assigning `id`; one row inserted; `date_joined` defaults to
the creation date if not supplied. -/
def Store.create (s : Store) (f : AccountFields) : Account × Store :=
  let a : Account :=
    { id := s.nextId, name := f.name, email := f.email, address := f.address,
      phone_number := f.phone_number,
      date_joined := f.date_joined.getD s.today }
  (a, { s with nextId := s.nextId + 1, accounts := s.accounts ++ [a] })

/-- Modelled from the spec: `update()` of the Account record — persists
in-place changes to the existing record identified by `id` (`id` fixed,
all mutable fields replaceable). -/
def Store.update (s : Store) (a : Account) : Store :=
  { s with accounts := s.accounts.map (fun b => if b.id == a.id then a else b) }

/-- Modelled from the spec: `delete()` of the Account record — removes
the record from the store by `id`. -/
def Store.delete (s : Store) (id : Nat) : Store :=
  { s with accounts := s.accounts.filter (fun a => a.id != id) }

/-- The body of an HTTP response produced by the route layer. -/
inductive RespBody where
  | empty : RespBody
  | record : Account → RespBody
  | records : List Account → RespBody
  | message : String → RespBody
  deriving Repr, DecidableEq

/-- An HTTP response: status code, body, extra headers. -/
structure Response where
  status : Nat
  body : RespBody
  headers : List (String × String)
  deriving Repr, DecidableEq

/-- An HTTP request as the route layer sees it: the declared
`Content-Type` header (if any) and the parsed JSON body (`none` when the
body is absent or not a JSON object). -/
structure Request where
  contentType : Option String
  body : Option Payload
  deriving Repr, DecidableEq

/-- `check_content_type` from `service/routes.py`: reads the request's
`Content-Type` header and accepts iff it is present, truthy (non-empty,
per Python) and equal to the expected media type; otherwise the request
is aborted with 415. -/
def check_content_type (media_type : String) (contentType : Option String) : Bool :=
  match contentType with
  | some ct => !ct.isEmpty && ct == media_type
  | none => false

/-- `create_accounts` from `service/routes.py` (`POST /accounts`): checks
the content type (415 on failure, before the body is touched), then
deserializes the body (400 on failure, before any store mutation), then
creates the record and returns 201 with the serialized record and a
`Location` header whose value is the constant string "/". -/
def create_accounts (s : Store) (req : Request) : Response × Store :=
  if !check_content_type "application/json" req.contentType then
    ({ status := 415, body := .message "Content-Type must be application/json",
       headers := [] }, s)
  else
    match req.body with
    | none =>
        ({ status := 400, body := .message "Bad Request", headers := [] }, s)
    | some p =>
        match deserialize p with
        | .error e => ({ status := 400, body := .message e, headers := [] }, s)
        | .ok f =>
            let (a, s') := Store.create s f
            ({ status := 201, body := .record (serialize a),
               headers := [("Location", "/")] }, s')

/-- `list_accounts` from `service/routes.py` (`GET /accounts`): retrieves
all accounts and returns the serialized list with status 200. -/
def list_accounts (s : Store) : Response × Store :=
  (({ status := 200, body := .records ((Store.all s).map serialize),
      headers := [] } : Response), s)

/-- `read_account` from `service/routes.py` (`GET /accounts/<id>`): finds
the account by id; aborts with 404 and a message naming the id when
absent; otherwise returns the serialized record with status 200. -/
def read_account (s : Store) (account_id : Nat) : Response × Store :=
  match Store.find s account_id with
  | none =>
      ({ status := 404,
         body := .message ("Account with id: " ++ toString account_id ++
                           " could not be found."),
         headers := [] }, s)
  | some a =>
      ({ status := 200, body := .record (serialize a), headers := [] }, s)

/-- Modelled from the spec: the `PUT /accounts/<id>` route, left
unimplemented in `service/routes.py` (only its tests exist).  Per the
spec: the not-found check runs first (404 with a message naming the id,
before any mutation), then the body is deserialized (400 if invalid),
then the record is updated in place (`id` fixed) and returned serialized
with status 200. -/
def update_account (s : Store) (account_id : Nat) (req : Request) : Response × Store :=
  match Store.find s account_id with
  | none =>
      ({ status := 404,
         body := .message ("Account with id: " ++ toString account_id ++
                           " could not be found."),
         headers := [] }, s)
  | some a =>
      match req.body with
      | none =>
          ({ status := 400, body := .message "Bad Request", headers := [] }, s)
      | some p =>
          match deserialize p with
          | .error e => ({ status := 400, body := .message e, headers := [] }, s)
          | .ok f =>
              let a' : Account :=
                { id := a.id, name := f.name, email := f.email,
                  address := f.address, phone_number := f.phone_number,
                  date_joined := f.date_joined.getD a.date_joined }
              (({ status := 200, body := .record (serialize a'),
                  headers := [] } : Response), Store.update s a')

/-- Modelled from the spec: the `DELETE /accounts/<id>` route, left
unimplemented in `service/routes.py` (only its tests exist).  Per the
spec: the not-found check runs first (404 when the id is absent), then
the record is deleted and 204 with an empty body is returned. -/
def delete_account (s : Store) (account_id : Nat) : Response × Store :=
  match Store.find s account_id with
  | none =>
      ({ status := 404,
         body := .message ("Account with id: " ++ toString account_id ++
                           " could not be found."),
         headers := [] }, s)
  | some _ =>
      (({ status := 204, body := .empty, headers := [] } : Response),
       Store.delete s account_id)

/-- A request that the create route accepts: correct content type and a
body whose deserialization succeeds. -/
def goodCreate (req : Request) : Prop :=
  req.contentType = some "application/json" ∧
  ∃ p f, req.body = some p ∧ deserialize p = .ok f

/-- Creating a sequence of accounts one request at a time. -/
def createMany (s : Store) (reqs : List Request) : Store :=
  reqs.foldl (fun s r => (create_accounts s r).2) s

/-- The empty store. -/
def emptyStore : Store :=
  { nextId := 1, accounts := [], today := "2020-01-01" }

/-- A sample valid creation payload (the spec's §8 scenario). -/
def samplePayload : Payload :=
  { name := some "Bea", email := some "b@x.com", address := some "1 Rd",
    phone_number := some "555-0100", date_joined := none }

/-- A sample well-formed create request. -/
def sampleReq : Request :=
  { contentType := some "application/json", body := some samplePayload }

/-- The store after one successful create on the empty store. -/
def store1 : Store :=
  (create_accounts emptyStore sampleReq).2

/- ### Helper lemmas -/

theorem check_accepts_iff (ct : Option String) :
    check_content_type "application/json" ct = true ↔ ct = some "application/json" := by
  cases ct with
  | none => simp [check_content_type]
  | some c =>
    simp only [check_content_type, Bool.and_eq_true, Bool.not_eq_true',
      beq_iff_eq, Option.some.injEq]
    constructor
    · rintro ⟨-, h⟩; exact h
    · rintro rfl; exact ⟨by decide, rfl⟩

theorem check_rejects (ct : Option String) (h : ct ≠ some "application/json") :
    check_content_type "application/json" ct = false := by
  cases hc : check_content_type "application/json" ct with
  | false => rfl
  | true => exact absurd ((check_accepts_iff ct).mp hc) h

theorem create_accounts_good (s : Store) (req : Request) (p : Payload)
    (f : AccountFields) (hct : req.contentType = some "application/json")
    (hb : req.body = some p) (hd : deserialize p = .ok f) :
    create_accounts s req =
      ({ status := 201, body := .record (serialize (Store.create s f).1),
         headers := [("Location", "/")] }, (Store.create s f).2) := by
  have hc : check_content_type "application/json" req.contentType = true :=
    (check_accepts_iff _).mpr hct
  simp [create_accounts, hc, hb, hd, Store.create, serialize]

theorem find_update_eq (l : List Account) (id : Nat) (a a' : Account)
    (h : l.find? (fun b => b.id == id) = some a) (hid : a'.id = id) :
    (l.map (fun b => if b.id == a'.id then a' else b)).find?
      (fun b => b.id == id) = some a' := by
  induction l with
  | nil => simp at h
  | cons x xs ih =>
    by_cases hx : x.id = id
    · simp [List.find?, hx, hid]
    · rw [List.find?_cons_of_neg _ (by simp [hx])] at h
      have hxne : (if x.id == a'.id then a' else x) = x := by
        simp [hid, hx]
      simp only [List.map_cons, hxne]
      rw [List.find?_cons_of_neg _ (by simp [hx])]
      exact ih h

theorem find_delete_eq (l : List Account) (id : Nat) :
    (l.filter (fun a => a.id != id)).find? (fun a => a.id == id) = none := by
  rw [List.find?_eq_none]
  intro x hx
  have hne := (List.mem_filter.mp hx).2
  simpa using hne

theorem createMany_length (reqs : List Request) (s : Store)
    (h : ∀ r ∈ reqs, goodCreate r) :
    (createMany s reqs).accounts.length = s.accounts.length + reqs.length := by
  induction reqs generalizing s with
  | nil => simp [createMany]
  | cons r rs ih =>
    obtain ⟨hct, p, f, hb, hd⟩ := h r (List.mem_cons_self _ _)
    have hstep : (create_accounts s r).2 = (Store.create s f).2 := by
      rw [create_accounts_good s r p f hct hb hd]
    have hcm : createMany s (r :: rs) = createMany (create_accounts s r).2 rs := rfl
    rw [hcm, hstep, ih _ (fun q hq => h q (List.mem_cons_of_mem _ hq))]
    simp [Store.create]
    omega

/- ### Claims -/

/-- C3: a POST to `/accounts` whose declared Content-Type is absent or
differs from `application/json` gets a 415 response and leaves the store
unchanged, for every request body (so no row is persisted and the check
does not depend on the body). -/
theorem create_bad_content_type_415 (s : Store) (req : Request)
    (h : req.contentType ≠ some "application/json") :
    (create_accounts s req).1.status = 415 ∧ (create_accounts s req).2 = s := by
  have hc : check_content_type "application/json" req.contentType = false :=
    check_rejects _ h
  simp [create_accounts, hc]

theorem create_bad_content_type_415_witness :
    ({ contentType := some "test/html", body := some samplePayload } :
        Request).contentType ≠ some "application/json" ∧
    (create_accounts emptyStore
        { contentType := some "test/html", body := some samplePayload }).1.status = 415 ∧
    (create_accounts emptyStore
        { contentType := some "test/html", body := some samplePayload }).2 = emptyStore :=
  ⟨by decide,
   create_bad_content_type_415 emptyStore
     { contentType := some "test/html", body := some samplePayload } (by decide)⟩

/-- C4: a POST to `/accounts` with Content-Type `application/json` whose
JSON body is missing a required field (`name`, `email`, or `address`)
gets a 400 response and leaves the store unchanged (no row persisted). -/
theorem create_missing_field_400 (s : Store) (req : Request) (p : Payload)
    (hct : req.contentType = some "application/json")
    (hb : req.body = some p)
    (hmiss : p.name = none ∨ p.email = none ∨ p.address = none) :
    (create_accounts s req).1.status = 400 ∧ (create_accounts s req).2 = s := by
  have hc : check_content_type "application/json" req.contentType = true :=
    (check_accepts_iff _).mpr hct
  rcases hn : p.name with _ | n <;> rcases he : p.email with _ | e <;>
    rcases ha : p.address with _ | a <;>
    simp_all [create_accounts, deserialize]

theorem create_missing_field_400_witness :
    ({ contentType := some "application/json",
       body := some { name := some "not enough data", email := none,
                      address := none, phone_number := none,
                      date_joined := none } } : Request).contentType =
        some "application/json" ∧
    (create_accounts emptyStore
        { contentType := some "application/json",
          body := some { name := some "not enough data", email := none,
                         address := none, phone_number := none,
                         date_joined := none } }).1.status = 400 ∧
    (create_accounts emptyStore
        { contentType := some "application/json",
          body := some { name := some "not enough data", email := none,
                         address := none, phone_number := none,
                         date_joined := none } }).2 = emptyStore :=
  ⟨rfl,
   create_missing_field_400 emptyStore _
     { name := some "not enough data", email := none, address := none,
       phone_number := none, date_joined := none }
     rfl rfl (Or.inr (Or.inl rfl))⟩

/-- C9: on every successful create (status 201) the response's headers
consist exactly of a `Location` header whose value is the constant string
"/", independent of the created record's id. -/
theorem create_location_is_root (s : Store) (req : Request)
    (h : (create_accounts s req).1.status = 201) :
    (create_accounts s req).1.headers = [("Location", "/")] := by
  unfold create_accounts at *
  cases hc : check_content_type "application/json" req.contentType with
  | false => simp [hc] at h
  | true =>
    cases hb : req.body with
    | none => simp [hc, hb] at h
    | some p =>
      cases hd : deserialize p with
      | error e => simp [hc, hb, hd] at h
      | ok f => simp [hc, hb, hd]

theorem create_location_is_root_witness :
    (create_accounts emptyStore sampleReq).1.status = 201 ∧
    (create_accounts emptyStore sampleReq).1.headers = [("Location", "/")] :=
  ⟨by decide, create_location_is_root emptyStore sampleReq (by decide)⟩

/-- C10: the content-type check accepts exactly the string
`application/json` (by string equality), and any other value — in
particular the parameterized `application/json; charset=utf-8` — makes
create return 415. -/
theorem check_content_type_exact (ct : Option String) (s : Store) (req : Request) :
    (check_content_type "application/json" ct = true ↔
      ct = some "application/json") ∧
    (req.contentType = some "application/json; charset=utf-8" →
      (create_accounts s req).1.status = 415) := by
  refine ⟨check_accepts_iff ct, fun h => ?_⟩
  have hc : check_content_type "application/json" req.contentType = false :=
    check_rejects _ (by rw [h]; intro hx; exact absurd (Option.some.inj hx) (by decide))
  simp [create_accounts, hc]

theorem check_content_type_exact_witness :
    (check_content_type "application/json"
        (some "application/json; charset=utf-8") = true ↔
      some "application/json; charset=utf-8" = some "application/json") ∧
    (create_accounts emptyStore
        { contentType := some "application/json; charset=utf-8",
          body := some samplePayload }).1.status = 415 :=
  ⟨(check_content_type_exact (some "application/json; charset=utf-8") emptyStore
      { contentType := some "application/json; charset=utf-8",
        body := some samplePayload }).1,
   (check_content_type_exact (some "application/json; charset=utf-8") emptyStore
      { contentType := some "application/json; charset=utf-8",
        body := some samplePayload }).2 rfl⟩

/-- C5: a POST to `/accounts` with Content-Type `application/json` and a
valid body returns 201; the response body is the serialized created
record, whose `id` is the integer the store assigned (`nextId`); the
record is appended to the store; and a `Location` header is present. -/
theorem create_valid_201 (s : Store) (req : Request) (p : Payload) (f : AccountFields)
    (hct : req.contentType = some "application/json")
    (hb : req.body = some p) (hd : deserialize p = .ok f) :
    (create_accounts s req).1.status = 201 ∧
    (∃ a, (create_accounts s req).1.body = .record (serialize a) ∧
      a.id = s.nextId ∧
      (create_accounts s req).2.accounts = s.accounts ++ [a]) ∧
    (∃ v, ("Location", v) ∈ (create_accounts s req).1.headers) := by
  rw [create_accounts_good s req p f hct hb hd]
  refine ⟨rfl, ⟨(Store.create s f).1, rfl, rfl, ?_⟩, "/", by simp⟩
  simp [Store.create]

theorem create_valid_201_witness :
    (create_accounts emptyStore sampleReq).1.status = 201 ∧
    (∃ a, (create_accounts emptyStore sampleReq).1.body = .record (serialize a) ∧
      a.id = emptyStore.nextId ∧
      (create_accounts emptyStore sampleReq).2.accounts =
        emptyStore.accounts ++ [a]) ∧
    (∃ v, ("Location", v) ∈ (create_accounts emptyStore sampleReq).1.headers) :=
  create_valid_201 emptyStore sampleReq samplePayload
    { name := "Bea", email := "b@x.com", address := "1 Rd",
      phone_number := some "555-0100", date_joined := none }
    rfl rfl rfl

/-- C6: a GET to `/accounts/<id>` returns 200 with the serialized stored
record when a record with that id exists, and 404 with a message naming
the missing id when none exists; in either case the store is unchanged. -/
theorem read_account_contract (s : Store) (id : Nat) :
    (∀ a, Store.find s id = some a →
      (read_account s id).1.status = 200 ∧
      (read_account s id).1.body = .record (serialize a)) ∧
    (Store.find s id = none →
      (read_account s id).1.status = 404 ∧
      ∃ pre post, (read_account s id).1.body =
        .message (pre ++ toString id ++ post)) ∧
    (read_account s id).2 = s := by
  refine ⟨fun a ha => ?_, fun ha => ?_, ?_⟩
  · simp [read_account, ha]
  · exact ⟨by simp [read_account, ha],
      "Account with id: ", " could not be found.", by simp [read_account, ha]⟩
  · unfold read_account
    cases Store.find s id <;> rfl

theorem read_account_contract_witness :
    ((read_account store1 1).1.status = 200 ∧
      (read_account store1 1).1.body =
        .record (serialize
          { id := 1, name := "Bea", email := "b@x.com", address := "1 Rd",
            phone_number := some "555-0100", date_joined := "2020-01-01" })) ∧
    ((read_account emptyStore 7).1.status = 404 ∧
      ∃ pre post, (read_account emptyStore 7).1.body =
        .message (pre ++ toString 7 ++ post)) :=
  ⟨(read_account_contract store1 1).1
      { id := 1, name := "Bea", email := "b@x.com", address := "1 Rd",
        phone_number := some "555-0100", date_joined := "2020-01-01" }
      (by decide),
   (read_account_contract emptyStore 7).2.1 rfl⟩

theorem deserialize_ok_fields (p : Payload) (f : AccountFields)
    (hd : deserialize p = .ok f) :
    p.name = some f.name ∧ p.email = some f.email ∧ p.address = some f.address ∧
    f.phone_number = p.phone_number ∧ f.date_joined = p.date_joined := by
  rcases hn : p.name with _ | n
  · simp [deserialize, hn] at hd
  rcases he : p.email with _ | e
  · simp [deserialize, hn, he] at hd
  rcases ha : p.address with _ | a
  · simp [deserialize, hn, he, ha] at hd
  have hf : ({ name := n, email := e, address := a,
               phone_number := p.phone_number,
               date_joined := p.date_joined } : AccountFields) = f := by
    have h := hd
    simp [deserialize, hn, he, ha] at h
    exact h
  subst hf
  simp [hn, he, ha]

/-- C8: for every valid creation payload, deserializing the serialization
of the record created from it succeeds and preserves the client-supplied
`name`, `email`, `address` and `phone_number` values. -/
theorem serialize_roundtrip (s : Store) (p : Payload) (f : AccountFields)
    (hd : deserialize p = .ok f) :
    ∃ g, deserialize (Account.toPayload (serialize (Store.create s f).1)) = .ok g ∧
      p.name = some g.name ∧ p.email = some g.email ∧
      p.address = some g.address ∧ g.phone_number = p.phone_number := by
  obtain ⟨h1, h2, h3, h4, -⟩ := deserialize_ok_fields p f hd
  exact ⟨_, rfl, h1, h2, h3, h4⟩

theorem serialize_roundtrip_witness :
    ∃ g, deserialize (Account.toPayload (serialize
        (Store.create emptyStore
          { name := "Bea", email := "b@x.com", address := "1 Rd",
            phone_number := some "555-0100", date_joined := none }).1)) = .ok g ∧
      samplePayload.name = some g.name ∧ samplePayload.email = some g.email ∧
      samplePayload.address = some g.address ∧
      g.phone_number = samplePayload.phone_number :=
  serialize_roundtrip emptyStore samplePayload
    { name := "Bea", email := "b@x.com", address := "1 Rd",
      phone_number := some "555-0100", date_joined := none } rfl

/-- The first (and only) account stored in `store1`. -/
def acct1 : Account :=
  { id := 1, name := "Bea", email := "b@x.com", address := "1 Rd",
    phone_number := some "555-0100", date_joined := "2020-01-01" }

/-- An update payload changing the name. -/
def updPayload : Payload :=
  { name := some "something known", email := some "b@x.com",
    address := some "1 Rd", phone_number := some "555-0100",
    date_joined := none }

/-- An update request carrying `updPayload`. -/
def updReq : Request :=
  { contentType := some "application/json", body := some updPayload }

/-- C1: a PUT to `/accounts/<id>` for a stored account with a valid JSON
body returns 200 and the serialized updated record (stored under the same
id, with the client-supplied field values); for an id with no stored
account it returns 404 and leaves the store unchanged. -/
theorem update_account_contract (s : Store) (id : Nat) (req : Request) :
    (∀ a p f, Store.find s id = some a → req.body = some p →
      deserialize p = .ok f →
      (update_account s id req).1.status = 200 ∧
      ∃ a', (update_account s id req).1.body = .record (serialize a') ∧
        Store.find (update_account s id req).2 id = some a' ∧
        a'.id = id ∧ a'.name = f.name ∧ a'.email = f.email ∧
        a'.address = f.address ∧ a'.phone_number = f.phone_number) ∧
    (Store.find s id = none →
      (update_account s id req).1.status = 404 ∧
      (update_account s id req).2 = s) := by
  constructor
  · intro a p f ha hb hd
    have hfp : s.accounts.find? (fun b => b.id == id) = some a := ha
    have haid : a.id = id := by simpa using List.find?_some hfp
    have hrw : update_account s id req =
        ({ status := 200,
           body := .record (serialize
             { id := a.id, name := f.name, email := f.email,
               address := f.address, phone_number := f.phone_number,
               date_joined := f.date_joined.getD a.date_joined }),
           headers := [] },
         Store.update s
           { id := a.id, name := f.name, email := f.email,
             address := f.address, phone_number := f.phone_number,
             date_joined := f.date_joined.getD a.date_joined }) := by
      simp [update_account, ha, hb, hd]
    rw [hrw]
    exact ⟨rfl, _, rfl, find_update_eq s.accounts id a _ hfp haid,
           haid, rfl, rfl, rfl, rfl⟩
  · intro ha
    simp [update_account, ha]

theorem update_account_contract_witness :
    (update_account store1 1 updReq).1.status = 200 ∧
    (∃ a', (update_account store1 1 updReq).1.body = .record (serialize a') ∧
      Store.find (update_account store1 1 updReq).2 1 = some a' ∧
      a'.id = 1 ∧ a'.name = "something known" ∧ a'.email = "b@x.com" ∧
      a'.address = "1 Rd" ∧ a'.phone_number = some "555-0100") ∧
    (update_account emptyStore 0 updReq).1.status = 404 :=
  ⟨((update_account_contract store1 1 updReq).1 acct1 updPayload
      { name := "something known", email := "b@x.com", address := "1 Rd",
        phone_number := some "555-0100", date_joined := none }
      (by decide) rfl rfl).1,
   ((update_account_contract store1 1 updReq).1 acct1 updPayload
      { name := "something known", email := "b@x.com", address := "1 Rd",
        phone_number := some "555-0100", date_joined := none }
      (by decide) rfl rfl).2,
   ((update_account_contract emptyStore 0 updReq).2 rfl).1⟩

/-- C2: a DELETE to `/accounts/<id>` for a stored account returns 204
with an empty body and removes the record (a subsequent find-by-id
reports absence); for an id with no stored account it returns 404 and
leaves the store unchanged. -/
theorem delete_account_contract (s : Store) (id : Nat) :
    ((∃ a, Store.find s id = some a) →
      (delete_account s id).1.status = 204 ∧
      (delete_account s id).1.body = .empty ∧
      Store.find (delete_account s id).2 id = none) ∧
    (Store.find s id = none →
      (delete_account s id).1.status = 404 ∧
      (delete_account s id).2 = s) := by
  constructor
  · rintro ⟨a, ha⟩
    have hrw : delete_account s id =
        ({ status := 204, body := .empty, headers := [] },
         Store.delete s id) := by
      simp [delete_account, ha]
    rw [hrw]
    exact ⟨rfl, rfl, find_delete_eq s.accounts id⟩
  · intro ha
    simp [delete_account, ha]

theorem delete_account_contract_witness :
    (delete_account store1 1).1.status = 204 ∧
    (delete_account store1 1).1.body = .empty ∧
    Store.find (delete_account store1 1).2 1 = none ∧
    (delete_account emptyStore 0).1.status = 404 :=
  ⟨((delete_account_contract store1 1).1 ⟨acct1, by decide⟩).1,
   ((delete_account_contract store1 1).1 ⟨acct1, by decide⟩).2.1,
   ((delete_account_contract store1 1).1 ⟨acct1, by decide⟩).2.2,
   ((delete_account_contract emptyStore 0).2 rfl).1⟩

/-- C7: creating N accounts from the empty store (each request accepted)
and then listing returns 200 with an array of exactly N serialized
entries; listing the empty store returns an empty array. -/
theorem list_accounts_count (reqs : List Request)
    (h : ∀ r ∈ reqs, goodCreate r) :
    (list_accounts (createMany emptyStore reqs)).1.status = 200 ∧
    (∃ l, (list_accounts (createMany emptyStore reqs)).1.body = .records l ∧
      l.length = reqs.length) ∧
    (list_accounts emptyStore).1.body = .records [] := by
  refine ⟨rfl, ⟨(createMany emptyStore reqs).accounts.map serialize, rfl, ?_⟩, rfl⟩
  rw [List.length_map, createMany_length reqs emptyStore h]
  simp [emptyStore]

theorem list_accounts_count_witness :
    (list_accounts (createMany emptyStore [sampleReq, sampleReq])).1.status = 200 ∧
    (∃ l, (list_accounts (createMany emptyStore [sampleReq, sampleReq])).1.body =
        .records l ∧ l.length = [sampleReq, sampleReq].length) ∧
    (list_accounts emptyStore).1.body = .records [] :=
  list_accounts_count [sampleReq, sampleReq] (by
    intro r hr
    simp only [List.mem_cons, List.not_mem_nil, or_false] at hr
    rcases hr with rfl | rfl <;>
      exact ⟨rfl, samplePayload,
        { name := "Bea", email := "b@x.com", address := "1 Rd",
          phone_number := some "555-0100", date_joined := none }, rfl, rfl⟩)

end AccountService
